import Mathlib

set_option maxRecDepth 20000
set_option maxHeartbeats 1000000

/-!
# Verification of the QualityGate pattern-analysis engine

A shallow embedding, in Lean 4, of the parts of the QualityGate repository
(`scripts/severity_analyzer.py`, `scripts/qg_runner.py`,
`scripts/performance_optimizer.py`, `scripts/optimized_severity_analyzer.py`)
that the verified claims are about, together with theorems settling those
claims.

Python strings are modelled as `List Char`; Python floats that carry exact
decimal constants (learning rates, confidence thresholds) are modelled as `ℚ`;
wall-clock time checks are modelled as boolean oracles; `os.environ` is
modelled as a function `String → Option String`.  Regular-expression patterns
(compiled with `re.IGNORECASE`, and `re.MULTILINE` where the source does so)
are embedded one by one as nondeterministic prefix matchers over `List Char`;
a pattern "matches" a string when the matcher succeeds at some start position,
which is Python's `re.search` semantics.
-/

namespace QualityGate

/-! ## Regular-expression matchers

A `Matcher` consumes a prefix of the input and returns the list of possible
remainders (one per nondeterministic parse).  A regex `search` succeeds when
some start position yields a nonempty remainder list. -/

abbrev Matcher := List Char → List (List Char)

/-- Match the empty string. -/
def mEps : Matcher := fun s => [s]

/-- Match one character satisfying `f` (a character class). -/
def mCls (f : Char → Bool) : Matcher := fun s =>
  match s with
  | [] => []
  | c :: rest => if f c then [rest] else []

/-- Sequencing of two matchers. -/
def mSeq (a b : Matcher) : Matcher := fun s => (a s).flatMap b

/-- Alternation of two matchers (`x|y`). -/
def mAlt (a b : Matcher) : Matcher := fun s => a s ++ b s

/-- Case-insensitive literal string (all patterns are compiled with
`re.IGNORECASE`). -/
def mLitCI : List Char → Matcher
  | [], s => [s]
  | _ :: _, [] => []
  | c :: cs, d :: ds => if c.toLower == d.toLower then mLitCI cs ds else []

/-- Case-insensitive literal from a string literal. -/
def mLit (t : String) : Matcher := mLitCI t.toList

/-- `f*` for a character class: zero or more characters satisfying `f`,
returning every possible split. -/
def mStarCls (f : Char → Bool) : Matcher
  | [] => [[]]
  | c :: rest => (c :: rest) :: (if f c then mStarCls f rest else [])

/-- `f{n}` for a character class: exactly `n` characters satisfying `f`. -/
def mRepCls : Nat → (Char → Bool) → Matcher
  | 0, _, s => [s]
  | _ + 1, _, [] => []
  | n + 1, f, c :: rest => if f c then mRepCls n f rest else []

/-- At most `n` characters satisfying `f`, returning every possible split. -/
def mUpToCls : Nat → (Char → Bool) → Matcher
  | 0, _, s => [s]
  | _ + 1, _, [] => [[]]
  | n + 1, f, c :: rest => (c :: rest) :: (if f c then mUpToCls n f rest else [])

/-- `f+` for a character class. -/
def mPlusCls (f : Char → Bool) : Matcher := mSeq (mCls f) (mStarCls f)

/-- `f{n,}` for a character class. -/
def mAtLeastCls (n : Nat) (f : Char → Bool) : Matcher :=
  mSeq (mRepCls n f) (mStarCls f)

/-- `f{n,m}` for a character class. -/
def mRangeCls (n m : Nat) (f : Char → Bool) : Matcher :=
  mSeq (mRepCls n f) (mUpToCls (m - n) f)

/-- The `$` assertion under `re.MULTILINE`: end of input or just before a
newline.  Consumes nothing. -/
def mEOL : Matcher := fun s =>
  match s with
  | [] => [[]]
  | c :: _ => if c == '\n' then [s] else []

/-- `.?` — at most one character other than a newline. -/
def mOptAny : Matcher := fun s =>
  s :: (match s with
        | [] => []
        | c :: r => if c == '\n' then [] else [r])

/-- Negative lookahead `(?!m)`: succeeds, consuming nothing, exactly when `m`
fails at this position. -/
def mLookNeg (m : Matcher) : Matcher := fun s => if (m s).isEmpty then [s] else []

/-- `re.search` semantics: try the matcher at every start position. -/
def reSearch (m : Matcher) : List Char → Bool
  | [] => !(m []).isEmpty
  | c :: rest => !(m (c :: rest)).isEmpty || reSearch m rest

/-! ### Character classes used by the patterns -/

/-- Python `\s` (ASCII range): space, tab, newline, carriage return, vertical
tab, form feed. -/
def isPySpace (c : Char) : Bool :=
  c == ' ' || c == '\t' || c == '\n' || c == '\r' || c == '\x0b' || c == '\x0c'

/-- Python `\w` on ASCII: letters, digits, underscore. -/
def isWordChar (c : Char) : Bool := c.isAlphanum || c == '_'

/-- `[0-9a-zA-Z]`; also `[0-9A-Z]` under `re.IGNORECASE`, which makes
character classes case-insensitive. -/
def isAsciiAlnum (c : Char) : Bool := c.isAlphanum

end QualityGate

namespace QualityGate

/-! ## `scripts/severity_analyzer.py` — default analysis rules

Each default pattern of `SeverityAnalyzer._load_analysis_rules` is embedded as
a `Matcher`.  All are compiled with `re.IGNORECASE | re.MULTILINE` in the
source. -/

/-- `(sk|pk)_(test|live)_[0-9a-zA-Z]{24,}` -/
def reApiSecret : Matcher :=
  mSeq (mAlt (mLit "sk") (mLit "pk")) <| mSeq (mLit "_") <|
  mSeq (mAlt (mLit "test") (mLit "live")) <| mSeq (mLit "_") <|
  mAtLeastCls 24 isAsciiAlnum

/-- `AKIA[0-9A-Z]{16}` -/
def reAwsKey : Matcher := mSeq (mLit "AKIA") (mRepCls 16 isAsciiAlnum)

/-- `AIza[0-9A-Za-z\-_]{35}` -/
def reGoogleKey : Matcher :=
  mSeq (mLit "AIza") (mRepCls 35 (fun c => isAsciiAlnum c || c == '-' || c == '_'))

/-- `xox[baprs]-[0-9a-zA-Z-]{10,48}` -/
def reSlackToken : Matcher :=
  mSeq (mLit "xox") <|
  mSeq (mCls (fun c => c.toLower == 'b' || c.toLower == 'a' || c.toLower == 'p' ||
                       c.toLower == 'r' || c.toLower == 's')) <|
  mSeq (mLit "-") <|
  mRangeCls 10 48 (fun c => isAsciiAlnum c || c == '-')

/-- `ghp_[0-9a-zA-Z]{36}` -/
def reGithubToken : Matcher := mSeq (mLit "ghp_") (mRepCls 36 isAsciiAlnum)

/-- `rm\s+-rf\s+/` -/
def reRmRf : Matcher :=
  mSeq (mLit "rm") <| mSeq (mPlusCls isPySpace) <| mSeq (mLit "-rf") <|
  mSeq (mPlusCls isPySpace) <| mLit "/"

/-- `sudo\s+rm\s+-rf` -/
def reSudoRm : Matcher :=
  mSeq (mLit "sudo") <| mSeq (mPlusCls isPySpace) <| mSeq (mLit "rm") <|
  mSeq (mPlusCls isPySpace) <| mLit "-rf"

/-- `DROP\s+DATABASE` -/
def reDropDatabase : Matcher :=
  mSeq (mLit "DROP") <| mSeq (mPlusCls isPySpace) <| mLit "DATABASE"

/-- `DELETE\s+FROM\s+\w+\s*(?:;|$)` (with `$` under `re.MULTILINE`) -/
def reDeleteFrom : Matcher :=
  mSeq (mLit "DELETE") <| mSeq (mPlusCls isPySpace) <| mSeq (mLit "FROM") <|
  mSeq (mPlusCls isPySpace) <| mSeq (mPlusCls isWordChar) <|
  mSeq (mStarCls isPySpace) <| mAlt (mLit ";") mEOL

/-- `eval\s*\(` -/
def reEvalCall : Matcher :=
  mSeq (mLit "eval") <| mSeq (mStarCls isPySpace) <| mLit "("

/-- `exec\s*\(` -/
def reExecCall : Matcher :=
  mSeq (mLit "exec") <| mSeq (mStarCls isPySpace) <| mLit "("

/-- `os\.system\s*\(` -/
def reOsSystem : Matcher :=
  mSeq (mLit "os.system") <| mSeq (mStarCls isPySpace) <| mLit "("

/-- `subprocess\.call\s*\([^)]*shell\s*=\s*True` -/
def reSubprocessShell : Matcher :=
  mSeq (mLit "subprocess.call") <| mSeq (mStarCls isPySpace) <| mSeq (mLit "(") <|
  mSeq (mStarCls (fun c => c != ')')) <| mSeq (mLit "shell") <|
  mSeq (mStarCls isPySpace) <| mSeq (mLit "=") <| mSeq (mStarCls isPySpace) <|
  mLit "True"

/-- `とりあえず|暫定対応|一時的|仮対応` -/
def reBandAidJa : Matcher :=
  mAlt (mLit "とりあえず") <| mAlt (mLit "暫定対応") <|
  mAlt (mLit "一時的") (mLit "仮対応")

/-- Alternatives of `\b(temporary|temp|quick.?fix|hack|workaround)\b`. -/
def bandAidEnAlt : Matcher :=
  mAlt (mLit "temporary") <| mAlt (mLit "temp") <|
  mAlt (mSeq (mLit "quick") (mSeq mOptAny (mLit "fix"))) <|
  mAlt (mLit "hack") (mLit "workaround")

/-- The trailing `\b` of the band-aid pattern: every alternative ends in a
word character, so the boundary holds iff the remainder is empty or starts
with a non-word character. -/
def endsAtWordBoundary (rem : List Char) : Bool :=
  match rem with
  | [] => true
  | c :: _ => !isWordChar c

/-- Search for `\b(temporary|temp|quick.?fix|hack|workaround)\b`, threading
the previous character for the leading boundary (every alternative begins
with a word character, so the leading boundary holds iff the previous
character is absent or non-word). -/
def searchBandAidEn : Option Char → List Char → Bool
  | _, [] => false
  | prev, c :: rest =>
    ((match prev with | none => true | some p => !isWordChar p) &&
      ((bandAidEnAlt (c :: rest)).any endsAtWordBoundary))
    || searchBandAidEn (some c) rest

/-- `\s*\([^)]+\)` — the "has context" suffix excluded by the TODO/FIXME/XXX
negative lookaheads. -/
def reContextParen : Matcher :=
  mSeq (mStarCls isPySpace) <| mSeq (mLit "(") <|
  mSeq (mPlusCls (fun c => c != ')')) <| mLit ")"

/-- `TODO(?!\s*\([^)]+\))` -/
def reTodoBare : Matcher := mSeq (mLit "TODO") (mLookNeg reContextParen)

/-- `FIXME(?!\s*\([^)]+\))` -/
def reFixmeBare : Matcher := mSeq (mLit "FIXME") (mLookNeg reContextParen)

/-- `XXX(?!\s*\([^)]+\))` -/
def reXxxBare : Matcher := mSeq (mLit "XXX") (mLookNeg reContextParen)

/-- `localhost:\d{4,5}` -/
def reLocalhost : Matcher := mSeq (mLit "localhost:") (mRangeCls 4 5 Char.isDigit)

/-- `127\.0\.0\.1:\d{4,5}` -/
def reLocalIp : Matcher := mSeq (mLit "127.0.0.1:") (mRangeCls 4 5 Char.isDigit)

/-- `http://[^/]+\.(com|org|net)` -/
def reProdUrl : Matcher :=
  mSeq (mLit "http://") <| mSeq (mPlusCls (fun c => c != '/')) <| mSeq (mLit ".") <|
  mAlt (mLit "com") (mAlt (mLit "org") (mLit "net"))

/-- `except\s*:\s*pass` -/
def reExceptPass : Matcher :=
  mSeq (mLit "except") <| mSeq (mStarCls isPySpace) <| mSeq (mLit ":") <|
  mSeq (mStarCls isPySpace) <| mLit "pass"

/-- `catch\s*\(\s*\)\s*\{` -/
def reCatchEmpty : Matcher :=
  mSeq (mLit "catch") <| mSeq (mStarCls isPySpace) <| mSeq (mLit "(") <|
  mSeq (mStarCls isPySpace) <| mSeq (mLit ")") <| mSeq (mStarCls isPySpace) <|
  mLit "\x7b"

/-- `console\.log` -/
def reConsoleLog : Matcher := mLit "console.log"

/-- `print\s*\(.*debug` -/
def rePrintDebug : Matcher :=
  mSeq (mLit "print") <| mSeq (mStarCls isPySpace) <| mSeq (mLit "(") <|
  mSeq (mStarCls (fun c => c != '\n')) <| mLit "debug"

end QualityGate

namespace QualityGate

/-- Python `str.strip()` (whitespace at both ends). -/
def pyStrip (s : List Char) : List Char :=
  ((s.dropWhile isPySpace).reverse.dropWhile isPySpace).reverse

/-- Python `str.lower()` (modelled characterwise; kernel-reducible, unlike
`String.toLower`). -/
def pyLower (s : String) : String := String.mk (s.data.map Char.toLower)

/-- One analysis rule: regex source string, its embedded matcher, message. -/
structure SRule where
  pat : String
  search : List Char → Bool
  msg : String

/-- The severity-grouped rule dictionary of `SeverityAnalyzer`
(`analysis_rules`); each severity keeps its Python dict insertion order. -/
structure SAnalysisRules where
  critical : List SRule
  high : List SRule
  info : List SRule

/-- The dict returned by `SeverityAnalyzer.analyze` on a match. -/
structure SFinding where
  severity : String
  message : String
  pattern : String
deriving DecidableEq

/-- The default rules of `SeverityAnalyzer._load_analysis_rules` (used when no
`config/patterns.json` is present, as in this repository). -/
def defaultRules : SAnalysisRules where
  critical := [
    ⟨"(sk|pk)_(test|live)_[0-9a-zA-Z]\x7b24,\x7d", reSearch reApiSecret,
      "ハードコードされたAPIシークレットが検出されました"⟩,
    ⟨"AKIA[0-9A-Z]\x7b16\x7d", reSearch reAwsKey,
      "ハードコードされたAWSアクセスキーIDが検出されました"⟩,
    ⟨"AIza[0-9A-Za-z\\-_]\x7b35\x7d", reSearch reGoogleKey,
      "ハードコードされたGoogle APIキーが検出されました"⟩,
    ⟨"xox[baprs]-[0-9a-zA-Z-]\x7b10,48\x7d", reSearch reSlackToken,
      "ハードコードされたSlackトークンが検出されました"⟩,
    ⟨"ghp_[0-9a-zA-Z]\x7b36\x7d", reSearch reGithubToken,
      "ハードコードされたGitHubパーソナルアクセストークンが検出されました"⟩,
    ⟨"rm\\s+-rf\\s+/", reSearch reRmRf, "危険な再帰的削除コマンドが検出されました"⟩,
    ⟨"sudo\\s+rm\\s+-rf", reSearch reSudoRm, "危険なsudo削除コマンドが検出されました"⟩,
    ⟨"DROP\\s+DATABASE", reSearch reDropDatabase, "直接的なデータベース削除操作が検出されました"⟩,
    ⟨"DELETE\\s+FROM\\s+\\w+\\s*(?:;|$)", reSearch reDeleteFrom,
      "フィルタなしのDELETE操作が検出されました"⟩,
    ⟨"eval\\s*\\(", reSearch reEvalCall, "直接的なeval()使用が検出されました"⟩,
    ⟨"exec\\s*\\(", reSearch reExecCall, "直接的なexec()使用が検出されました"⟩,
    ⟨"os\\.system\\s*\\(", reSearch reOsSystem, "直接的なos.system()使用が検出されました"⟩,
    ⟨"subprocess\\.call\\s*\\([^)]*shell\\s*=\\s*True", reSearch reSubprocessShell,
      "シェルインジェクション脆弱性が検出されました"⟩]
  high := [
    ⟨"とりあえず|暫定対応|一時的|仮対応", reSearch reBandAidJa,
      "バンドエイド修正の可能性が検出されました"⟩,
    ⟨"\\b(temporary|temp|quick.?fix|hack|workaround)\\b", searchBandAidEn none,
      "バンドエイド修正の可能性が検出されました"⟩,
    ⟨"TODO(?!\\s*\\([^)]+\\))", reSearch reTodoBare,
      "担当者・コンテキストなしのTODOが検出されました"⟩,
    ⟨"FIXME(?!\\s*\\([^)]+\\))", reSearch reFixmeBare,
      "担当者・コンテキストなしのFIXMEが検出されました"⟩,
    ⟨"XXX(?!\\s*\\([^)]+\\))", reSearch reXxxBare,
      "コンテキストなしのXXXマーカーが検出されました"⟩,
    ⟨"localhost:\\d\x7b4,5\x7d", reSearch reLocalhost,
      "ハードコードされたlocalhostURLが検出されました"⟩,
    ⟨"127\\.0\\.0\\.1:\\d\x7b4,5\x7d", reSearch reLocalIp,
      "ハードコードされたlocalhostIPが検出されました"⟩,
    ⟨"http://[^/]+\\.(com|org|net)", reSearch reProdUrl,
      "ハードコードされた本番URLが検出されました"⟩,
    ⟨"except\\s*:\\s*pass", reSearch reExceptPass, "サイレント例外処理が検出されました"⟩,
    ⟨"catch\\s*\\(\\s*\\)\\s*\\\x7b", reSearch reCatchEmpty,
      "空のcatchブロックが検出されました"⟩]
  info := [
    ⟨"console\\.log", reSearch reConsoleLog, "デバッグ用console.logが検出されました"⟩,
    ⟨"print\\s*\\(.*debug", reSearch rePrintDebug, "デバッグ用print文が検出されました"⟩]

/-- `SeverityAnalyzer.analyze`: walk severities from CRITICAL down, return the
first rule (in stable dict order) whose pattern matches.  (Invalid regexes are
skipped by the source; every embedded rule corresponds to a pattern that
compiles.) -/
def severityAnalyze (rules : SAnalysisRules) (content : List Char) : Option SFinding :=
  match rules.critical.find? (fun r => r.search content) with
  | some r => some ⟨"CRITICAL", r.msg, r.pat⟩
  | none =>
    match rules.high.find? (fun r => r.search content) with
    | some r => some ⟨"HIGH", r.msg, r.pat⟩
    | none =>
      match rules.info.find? (fun r => r.search content) with
      | some r => some ⟨"INFO", r.msg, r.pat⟩
      | none => none

/-- `'1' / 'true' / 'yes'` case-insensitively (the membership test
`os.environ.get(var, '').lower() in ['1', 'true', 'yes']`). -/
def truthyFlag (v : String) : Bool :=
  pyLower v == "1" || pyLower v == "true" || pyLower v == "yes"

/-- The `bypass_vars` list of `check_bypass_conditions`. -/
def severityBypassVars : List String :=
  ["BYPASS_DESIGN_HOOK", "QUALITYGATE_DISABLED", "EMERGENCY_BYPASS"]

/-- `severity_analyzer.check_bypass_conditions`. -/
def check_bypass_conditions (env : String → Option String) : Bool :=
  severityBypassVars.any (fun v => truthyFlag ((env v).getD ""))

end QualityGate

namespace QualityGate

/-! ## `scripts/qg_runner.py` — the Codex-facing CLI wrapper -/

/-- The JSON result record `qg_runner.RunnerResult`. -/
structure RunnerResult where
  status : String
  severity : Option String := none
  message : Option String := none
  pattern : Option String := none
  block : Bool := false
deriving DecidableEq

/-- `--source` choice. -/
inductive RunnerSource where
  | stdin
  | file
deriving DecidableEq

/-- Inputs and failure oracles of one `qg_runner.main` invocation: whether the
`severity_analyzer` import succeeded, the CLI arguments, the stdin payload,
the file-read outcome, and the outcome of constructing and running the
analyzer (`Except.error` models a raised exception). -/
structure MainInvocation where
  importOK : Bool
  importErr : String := ""
  source : RunnerSource
  fileArg : Option String := none
  stdinContent : List Char := []
  fileRead : Except String (List Char) := .ok []
  analyzeRun : Except String (Option SFinding)
  warnOnly : Bool := false

/-- Python `str.upper()` (modelled characterwise; kernel-reducible, unlike
`String.toUpper`). -/
def pyUpper (s : String) : String := String.mk (s.data.map Char.toUpper)

/-- Content loading in `qg_runner.main` (stdin or `--file`); an `error`
result is printed as-is and the process exits 0. -/
def loadContent (i : MainInvocation) : Except RunnerResult (List Char) :=
  match i.source with
  | .stdin => .ok i.stdinContent
  | .file =>
    match i.fileArg with
    | none => .error ⟨"error", none, some "--file is required when --source=file", none, false⟩
    | some _ =>
      match i.fileRead with
      | .ok c => .ok c
      | .error e => .error ⟨"error", none, some ("Failed to read file: " ++ e), none, false⟩

/-- `qg_runner.main`: returns the printed `RunnerResult` and the exit code. -/
def qg_main (i : MainInvocation) : RunnerResult × Nat :=
  if !i.importOK then
    (⟨"error", none, some ("Analyzer import failed: " ++ i.importErr), none, false⟩, 0)
  else
    match loadContent i with
    | .error rr => (rr, 0)
    | .ok content =>
      if (pyStrip content).isEmpty then
        (⟨"no_content", none, some "No content to analyze", none, false⟩, 0)
      else
        match i.analyzeRun with
        | .error e => (⟨"error", none, some ("Analyzer error: " ++ e), none, false⟩, 0)
        | .ok none => (⟨"passed", none, none, none, false⟩, 0)
        | .ok (some f) =>
          let isCritical := pyUpper f.severity == "CRITICAL"
          if isCritical && !i.warnOnly then
            (⟨"blocked", some f.severity, some f.message, some f.pattern, true⟩, 2)
          else
            (⟨if isCritical then "passed_with_warnings" else "passed",
              some f.severity, some f.message, some f.pattern, false⟩, 0)

/-- A healthy CLI run: import succeeds, content arrives on stdin, and the
analyzer runs `SeverityAnalyzer.analyze` with the default rules without
raising. -/
def qg_run_default (content : List Char) (warnOnly : Bool) : RunnerResult × Nat :=
  qg_main { importOK := true, source := .stdin, stdinContent := content,
            analyzeRun := .ok (severityAnalyze defaultRules content),
            warnOnly := warnOnly }

/-- Boolean substring test (used to state "the message mentions ..."). -/
def isPrefixOfB : List Char → List Char → Bool
  | [], _ => true
  | _ :: _, [] => false
  | a :: as, b :: bs => a == b && isPrefixOfB as bs

/-- `needle` occurs somewhere in the second list. -/
def containsSeg (needle : List Char) : List Char → Bool
  | [] => isPrefixOfB needle []
  | c :: rest => isPrefixOfB needle (c :: rest) || containsSeg needle rest

end QualityGate

namespace QualityGate

/-- Helper: when some rule in `rs` matches, `find?` yields a rule. -/
theorem find?_of_any {rs : List SRule} {content : List Char}
    (h : rs.any (fun r => r.search content) = true) :
    ∃ r, rs.find? (fun r => r.search content) = some r := by
  rcases List.any_eq_true.mp h with ⟨r, hr, hpr⟩
  cases hfind : rs.find? (fun r => r.search content) with
  | none => exact absurd hpr (by simpa using List.find?_eq_none.mp hfind r hr)
  | some r' => exact ⟨r', rfl⟩

end QualityGate

/-- C3: `SeverityAnalyzer.analyze` returns the highest-severity match: a
CRITICAL match forces a CRITICAL finding; with no CRITICAL match a HIGH match
forces a HIGH finding; an INFO finding is returned only when no CRITICAL and
no HIGH pattern matches. -/
theorem QualityGate.c3_monotone_severity (rules : QualityGate.SAnalysisRules)
    (content : List Char) :
    (rules.critical.any (fun r => r.search content) = true →
      ∃ f, QualityGate.severityAnalyze rules content = some f ∧ f.severity = "CRITICAL") ∧
    (rules.critical.any (fun r => r.search content) = false →
     rules.high.any (fun r => r.search content) = true →
      ∃ f, QualityGate.severityAnalyze rules content = some f ∧ f.severity = "HIGH") ∧
    (∀ f, QualityGate.severityAnalyze rules content = some f → f.severity = "INFO" →
      rules.critical.any (fun r => r.search content) = false ∧
      rules.high.any (fun r => r.search content) = false) := by
  refine ⟨?_, ?_, ?_⟩
  · intro hc
    rcases QualityGate.find?_of_any hc with ⟨r, hfind⟩
    exact ⟨⟨"CRITICAL", r.msg, r.pat⟩,
      by simp [QualityGate.severityAnalyze, hfind], rfl⟩
  · intro hc hh
    rcases QualityGate.find?_of_any hh with ⟨r, hfind⟩
    have hcnone : rules.critical.find? (fun r => r.search content) = none := by
      cases hfc : rules.critical.find? (fun r => r.search content) with
      | none => rfl
      | some r' =>
        have hsr := List.find?_some hfc
        have hmem := List.mem_of_find?_eq_some hfc
        have hany : rules.critical.any (fun r => r.search content) = true :=
          List.any_eq_true.mpr ⟨r', hmem, hsr⟩
        rw [hc] at hany
        cases hany
    exact ⟨⟨"HIGH", r.msg, r.pat⟩,
      by simp [QualityGate.severityAnalyze, hcnone, hfind], rfl⟩
  · intro f hf hsev
    unfold QualityGate.severityAnalyze at hf
    cases hfc : rules.critical.find? (fun r => r.search content) with
    | some r =>
      rw [hfc] at hf
      cases hf
      simp at hsev
    | none =>
      rw [hfc] at hf
      cases hfh : rules.high.find? (fun r => r.search content) with
      | some r =>
        rw [hfh] at hf
        cases hf
        simp at hsev
      | none =>
        refine ⟨?_, ?_⟩
        · cases hany : rules.critical.any (fun r => r.search content) with
          | false => rfl
          | true =>
            rcases QualityGate.find?_of_any hany with ⟨r, hr⟩
            simp [hr] at hfc
        · cases hany : rules.high.any (fun r => r.search content) with
          | false => rfl
          | true =>
            rcases QualityGate.find?_of_any hany with ⟨r, hr⟩
            simp [hr] at hfh

/-- Witness for C3 at a concrete input: `"eval("` matches a CRITICAL rule of
the default set, and the verdict is CRITICAL. -/
theorem QualityGate.c3_monotone_severity_witness :
    QualityGate.defaultRules.critical.any (fun r => r.search "eval(".toList) = true ∧
    ∃ f, QualityGate.severityAnalyze QualityGate.defaultRules "eval(".toList = some f ∧
      f.severity = "CRITICAL" :=
  ⟨by decide,
   (QualityGate.c3_monotone_severity QualityGate.defaultRules "eval(".toList).1 (by decide)⟩

/-- C2: with the default pattern set, `"sk_test_1234567890abcdef1234567890abcdef"`
yields a CRITICAL finding whose message mentions a hardcoded API secret
(`APIシークレット`), and `qg_runner.main` without `--warn-only` reports status
`blocked` with `block = true` and exits with code 2. -/
theorem QualityGate.c2_sk_test_blocked :
    QualityGate.severityAnalyze QualityGate.defaultRules
        "sk_test_1234567890abcdef1234567890abcdef".toList =
      some ⟨"CRITICAL", "ハードコードされたAPIシークレットが検出されました",
            "(sk|pk)_(test|live)_[0-9a-zA-Z]\x7b24,\x7d"⟩ ∧
    QualityGate.containsSeg "APIシークレット".toList
        "ハードコードされたAPIシークレットが検出されました".toList = true ∧
    QualityGate.qg_run_default "sk_test_1234567890abcdef1234567890abcdef".toList false =
      (⟨"blocked", some "CRITICAL", some "ハードコードされたAPIシークレットが検出されました",
        some "(sk|pk)_(test|live)_[0-9a-zA-Z]\x7b24,\x7d", true⟩, 2) :=
  ⟨by decide, by decide, by decide⟩

/-- C4 counterexample: on `"とりあえずこれで修正"` the CLI wrapper reports status
`"passed"`, not `"passed_with_warnings"` as the claim states (the severity is
HIGH and the exit code is 0, as claimed). -/
theorem QualityGate.c4_counterexample :
    (QualityGate.qg_run_default "とりあえずこれで修正".toList false).1.status ≠
      "passed_with_warnings" ∧
    (QualityGate.qg_run_default "とりあえずこれで修正".toList false).1.status = "passed" :=
  ⟨by decide, by decide⟩

/-- C4 (amended): with the default pattern set, analyzing
`"とりあえずこれで修正"` through `qg_runner.main` yields status `"passed"` with
severity HIGH and exit code 0 (`"passed_with_warnings"` is produced only for a
CRITICAL finding under `--warn-only`). -/
theorem QualityGate.c4_amended_passed :
    QualityGate.qg_run_default "とりあえずこれで修正".toList false =
      (⟨"passed", some "HIGH", some "バンドエイド修正の可能性が検出されました",
        some "とりあえず|暫定対応|一時的|仮対応", false⟩, 0) ∧
    (∀ f : QualityGate.SFinding, ∀ w : Bool,
      (QualityGate.qg_main { importOK := true, source := .stdin,
                             stdinContent := "x".toList,
                             analyzeRun := .ok (some f),
                             warnOnly := w }).1.status = "passed_with_warnings" →
      QualityGate.pyUpper f.severity = "CRITICAL" ∧ w = true) := by
  refine ⟨by decide, ?_⟩
  intro f w h
  have hstrip : (QualityGate.pyStrip "x".toList).isEmpty = false := by decide
  by_cases hc : QualityGate.pyUpper f.severity == "CRITICAL"
  · refine ⟨by simpa using hc, ?_⟩
    cases w with
    | true => rfl
    | false =>
      exfalso
      simp only [QualityGate.qg_main, QualityGate.loadContent] at h
      rw [hstrip, hc] at h
      simp at h
  · exfalso
    have hc' : (QualityGate.pyUpper f.severity == "CRITICAL") = false := by
      simpa using hc
    simp only [QualityGate.qg_main, QualityGate.loadContent] at h
    rw [hstrip, hc'] at h
    simp at h

namespace QualityGate

/-! ## `scripts/optimized_severity_analyzer.py` — hot-path entry skeleton -/

/-- The `(severity, message)` part of the verdict triple returned by
`analyze_input_optimized` (the third component is a fixed per-severity action
dict and is omitted). -/
structure OptVerdict where
  severity : String
  message : String
deriving DecidableEq

/-- Step 1 of `analyze_input_optimized`: the bypass condition, which tests
`os.environ.get(var) == "1"` for exactly `BYPASS_DESIGN_HOOK`,
`QUALITYGATE_DISABLED` and `EMERGENCY_BYPASS`. -/
def optimizedBypassCheck (env : String → Option String) : Bool :=
  env "BYPASS_DESIGN_HOOK" == some "1" ||
  env "QUALITYGATE_DISABLED" == some "1" ||
  env "EMERGENCY_BYPASS" == some "1"

/-- `analyze_input_optimized` with the tiered/ultrafast/fallback analysis that
runs after the bypass check abstracted as `rest`; `Except.error` models an
exception raised inside the `try` block, which the `except` arm maps to the
ERROR verdict.  The Step 0 realtime-integration pre-processing
(`_update_hook_data_stream`, `_update_live_metrics`,
`_adaptive_performance_optimization`) swallows its own exceptions and produces
no verdict, so it does not appear; the empty-input guard precedes the `try`
block. -/
def analyze_input_optimized (env : String → Option String) (input : List Char)
    (rest : Except String OptVerdict) : OptVerdict :=
  if (pyStrip input).isEmpty then ⟨"NONE", ""⟩
  else if optimizedBypassCheck env then ⟨"BYPASS", "バイパスモード"⟩
  else
    match rest with
    | .ok v => v
    | .error e => ⟨"ERROR", "分析エラー: " ++ e⟩

end QualityGate

/-- C1 counterexample: with `QUALITYGATE_BYPASS=1` and no other flag set,
`check_bypass_conditions` reports no bypass and `analyze_input_optimized`
proceeds to pattern analysis instead of returning the Bypass verdict; and
`EMERGENCY_BYPASS=true` — a truthy value the claim says bypasses both entry
points — is ignored by `analyze_input_optimized`, which compares against the
exact string `"1"` only. -/
theorem QualityGate.c1_counterexample :
    QualityGate.check_bypass_conditions
        (fun v => if v = "QUALITYGATE_BYPASS" then some "1" else none) = false ∧
    QualityGate.analyze_input_optimized
        (fun v => if v = "QUALITYGATE_BYPASS" then some "1" else none)
        "content".toList (.ok ⟨"NONE", ""⟩) = ⟨"NONE", ""⟩ ∧
    QualityGate.truthyFlag "true" = true ∧
    QualityGate.analyze_input_optimized
        (fun v => if v = "EMERGENCY_BYPASS" then some "true" else none)
        "content".toList (.ok ⟨"NONE", ""⟩) = ⟨"NONE", ""⟩ :=
  ⟨by decide, by decide, by decide, by decide⟩

/-- C1 (amended): `check_bypass_conditions` bypasses exactly when one of
`BYPASS_DESIGN_HOOK`, `QUALITYGATE_DISABLED`, `EMERGENCY_BYPASS` has a truthy
value (`1`/`true`/`yes`, case-insensitive); `analyze_input_optimized` returns
the Bypass verdict for every non-blank input — independently of the analysis
stage, hence without testing any pattern — whenever one of those same three
variables is exactly `"1"`.  `QUALITYGATE_BYPASS` is consulted by neither
entry point. -/
theorem QualityGate.c1_amended (env : String → Option String) (input : List Char)
    (rest : Except String QualityGate.OptVerdict) :
    (QualityGate.check_bypass_conditions env = true ↔
      (QualityGate.truthyFlag ((env "BYPASS_DESIGN_HOOK").getD "") = true ∨
       QualityGate.truthyFlag ((env "QUALITYGATE_DISABLED").getD "") = true ∨
       QualityGate.truthyFlag ((env "EMERGENCY_BYPASS").getD "") = true)) ∧
    ((QualityGate.pyStrip input).isEmpty = false →
     (env "BYPASS_DESIGN_HOOK" = some "1" ∨ env "QUALITYGATE_DISABLED" = some "1" ∨
      env "EMERGENCY_BYPASS" = some "1") →
     QualityGate.analyze_input_optimized env input rest = ⟨"BYPASS", "バイパスモード"⟩) := by
  constructor
  · simp [QualityGate.check_bypass_conditions, QualityGate.severityBypassVars]
  · intro hne hflag
    have hbp : QualityGate.optimizedBypassCheck env = true := by
      rcases hflag with h | h | h <;> simp [QualityGate.optimizedBypassCheck, h]
    simp [QualityGate.analyze_input_optimized, hne, hbp]

/-- Witness for C1 (amended) at a concrete environment and input:
`EMERGENCY_BYPASS=1` makes both entry points bypass on `"sk_test_x"`. -/
theorem QualityGate.c1_amended_witness :
    (QualityGate.pyStrip "sk_test_x".toList).isEmpty = false ∧
    QualityGate.analyze_input_optimized
        (fun v => if v = "EMERGENCY_BYPASS" then some "1" else none)
        "sk_test_x".toList (.ok ⟨"NONE", ""⟩) = ⟨"BYPASS", "バイパスモード"⟩ ∧
    QualityGate.check_bypass_conditions
        (fun v => if v = "EMERGENCY_BYPASS" then some "1" else none) = true :=
  ⟨by decide,
   (QualityGate.c1_amended (fun v => if v = "EMERGENCY_BYPASS" then some "1" else none)
      "sk_test_x".toList (.ok ⟨"NONE", ""⟩)).2 (by decide)
     (Or.inr (Or.inr (by decide))),
   by decide⟩

/-- Witness for C4 (amended), exercising the quantified conjunct: a CRITICAL
finding under `--warn-only` does produce `"passed_with_warnings"`, and the
theorem recovers that its severity upper-cases to CRITICAL. -/
theorem QualityGate.c4_amended_passed_witness :
    (QualityGate.qg_main { importOK := true, source := .stdin,
                           stdinContent := "x".toList,
                           analyzeRun := .ok (some ⟨"CRITICAL", "m", "p"⟩),
                           warnOnly := true }).1.status = "passed_with_warnings" ∧
    QualityGate.pyUpper "CRITICAL" = "CRITICAL" :=
  ⟨by decide,
   (QualityGate.c4_amended_passed.2 ⟨"CRITICAL", "m", "p"⟩ true (by decide)).1⟩

/-- C6: the hot-path entry points are fail-open.  An exception inside the
analysis stage of `analyze_input_optimized` is mapped to the ERROR verdict
(never re-raised); `qg_runner.main` maps analyzer-import failures, file-read
failures and analysis exceptions to a JSON result with status `error`,
`block = false`, and exit code 0. -/
theorem QualityGate.c6_fail_open :
    (∀ (env : String → Option String) (input : List Char) (e : String),
      (QualityGate.pyStrip input).isEmpty = false →
      QualityGate.optimizedBypassCheck env = false →
      QualityGate.analyze_input_optimized env input (.error e) =
        ⟨"ERROR", "分析エラー: " ++ e⟩) ∧
    (∀ i : QualityGate.MainInvocation, i.importOK = false →
      QualityGate.qg_main i =
        (⟨"error", none, some ("Analyzer import failed: " ++ i.importErr), none, false⟩, 0)) ∧
    (∀ (i : QualityGate.MainInvocation) (e fp : String),
      i.importOK = true → i.source = .file → i.fileArg = some fp →
      i.fileRead = .error e →
      QualityGate.qg_main i =
        (⟨"error", none, some ("Failed to read file: " ++ e), none, false⟩, 0)) ∧
    (∀ (i : QualityGate.MainInvocation) (e : String),
      i.importOK = true → i.source = .stdin →
      (QualityGate.pyStrip i.stdinContent).isEmpty = false →
      i.analyzeRun = .error e →
      QualityGate.qg_main i =
        (⟨"error", none, some ("Analyzer error: " ++ e), none, false⟩, 0)) := by
  refine ⟨?_, ?_, ?_, ?_⟩
  · intro env input e hne hbp
    simp [QualityGate.analyze_input_optimized, hne, hbp]
  · intro i h
    simp [QualityGate.qg_main, h]
  · intro i e fp h1 h2 h3 h4
    simp [QualityGate.qg_main, QualityGate.loadContent, h1, h2, h3, h4]
  · intro i e h1 h2 h3 h4
    simp [QualityGate.qg_main, QualityGate.loadContent, h1, h2, h3, h4]

/-- Witness for C6 at concrete invocations: an analysis exception on a
non-blank stdin payload, and an import failure, both yield status `error`,
`block = false`, exit code 0; an internal exception in the optimized analyzer
yields the ERROR verdict. -/
theorem QualityGate.c6_fail_open_witness :
    QualityGate.analyze_input_optimized (fun _ => none) "x".toList (.error "boom") =
      ⟨"ERROR", "分析エラー: boom"⟩ ∧
    QualityGate.qg_main { importOK := false, importErr := "no module", source := .stdin,
                          analyzeRun := .ok none } =
      (⟨"error", none, some "Analyzer import failed: no module", none, false⟩, 0) ∧
    QualityGate.qg_main { importOK := true, source := .stdin,
                          stdinContent := "x".toList,
                          analyzeRun := .error "oops" } =
      (⟨"error", none, some "Analyzer error: oops", none, false⟩, 0) :=
  ⟨QualityGate.c6_fail_open.1 (fun _ => none) "x".toList "boom" (by decide) (by decide),
   QualityGate.c6_fail_open.2.1 _ (by decide),
   QualityGate.c6_fail_open.2.2.2 _ "oops" rfl rfl (by decide) rfl⟩

namespace QualityGate

/-! ### Background learning queue (`_background_pattern_learning`) -/

/-- One entry of `learning_queue`: the asynchronous-initialization task of
`_schedule_background_initialization`, or a `pattern_update` learning task
carrying pattern, severity, derived tier and observed confidence. -/
inductive QItem where
  | initTask
  | learn (pattern severity tier : String) (confidence : ℚ)
deriving DecidableEq

/-- `tiered_learning_config.get(tier, {}).get('max_queue_size', 50)`. -/
def maxQueueSize (t : String) : Nat :=
  if t = "ULTRA_CRITICAL" then 5 else if t = "CRITICAL_FAST" then 20 else 50

/-- Step 2 of `_background_pattern_learning`: tier from severity. -/
def tierOfSeverity (severity : String) : String :=
  if severity = "CRITICAL" then "ULTRA_CRITICAL"
  else if severity = "HIGH" then "CRITICAL_FAST"
  else "HIGH_NORMAL"

/-- Step 3 of `_background_pattern_learning`: the task is appended only while
the (single, shared) `learning_queue` is strictly shorter than the enqueuing
tier's capacity; otherwise the queue is left unchanged. -/
def enqueueLearning (q : List QItem) (pattern severity : String) (confidence : ℚ) :
    List QItem :=
  if q.length < maxQueueSize (tierOfSeverity severity) then
    q ++ [.learn pattern severity (tierOfSeverity severity) confidence]
  else q

/-- `_schedule_background_initialization`: append while fewer than 10 items. -/
def scheduleInit (q : List QItem) : List QItem :=
  if q.length < 10 then q ++ [.initTask] else q

/-- States of `learning_queue` reachable from initialization: the queue starts
empty, grows by `_background_pattern_learning` or
`_schedule_background_initialization`, and shrinks by the front pops of
`_process_background_learning_queue` or by `clear_all_caches`. -/
inductive QReachable : List QItem → Prop where
  | empty : QReachable []
  | enq (q : List QItem) (pattern severity : String) (confidence : ℚ) :
      QReachable q → QReachable (enqueueLearning q pattern severity confidence)
  | sched (q : List QItem) : QReachable q → QReachable (scheduleInit q)
  | deq (q : List QItem) : QReachable q → QReachable q.tail
  | clear (q : List QItem) : QReachable q → QReachable []

/-- Number of queued learning tasks assigned to a given tier. -/
def countTier (q : List QItem) (tier : String) : Nat :=
  q.countP (fun it => match it with
    | .learn _ _ t _ => t == tier
    | .initTask => false)

theorem maxQueueSize_le_50 (t : String) : maxQueueSize t ≤ 50 := by
  unfold maxQueueSize
  split
  · norm_num
  · split <;> norm_num

theorem countTier_le_length (q : List QItem) (tier : String) :
    countTier q tier ≤ q.length :=
  List.countP_le_length _

theorem countTier_append (q r : List QItem) (tier : String) :
    countTier (q ++ r) tier = countTier q tier + countTier r tier :=
  List.countP_append _ _ _

theorem countTier_tail_le (q : List QItem) (tier : String) :
    countTier q.tail tier ≤ countTier q tier := by
  cases q with
  | nil => exact le_refl _
  | cons h t =>
    simp only [List.tail_cons, countTier, List.countP_cons]
    omega

end QualityGate

namespace QualityGate

/-- Helper for the queue invariant: appending one learning task to a queue
strictly below the enqueuing tier's capacity preserves the per-tier count
bound `n` for any tier `T` of capacity `n`. -/
theorem enq_count_bound (q : List QItem) (p s T : String) (c : ℚ) (n : Nat)
    (hT : maxQueueSize T = n)
    (hlt : q.length < maxQueueSize (tierOfSeverity s))
    (ih : countTier q T ≤ n) :
    countTier (q ++ [.learn p s (tierOfSeverity s) c]) T ≤ n := by
  rw [countTier_append]
  by_cases h : tierOfSeverity s = T
  · have h1 : countTier [QItem.learn p s (tierOfSeverity s) c] T = 1 := by
      simp [countTier, h]
    rw [h1]
    have h2 := countTier_le_length q T
    rw [h, hT] at hlt
    omega
  · have h0 : countTier [QItem.learn p s (tierOfSeverity s) c] T = 0 := by
      simp [countTier, h]
    omega

end QualityGate

/-- C7 (amended): at every reachable state the single shared `learning_queue`
holds at most 50 items, and the number of queued learning tasks of each tier
never exceeds that tier's configured capacity (5 ULTRA_CRITICAL, 20
CRITICAL_FAST, 50 HIGH_NORMAL); when a task is enqueued while the queue
length is at or above the enqueuing tier's capacity, the *new* task is
dropped and the queue is unchanged (the oldest task is retained, not
evicted). -/
theorem QualityGate.c7_amended :
    (∀ q : List QualityGate.QItem, QualityGate.QReachable q →
      q.length ≤ 50 ∧
      QualityGate.countTier q "ULTRA_CRITICAL" ≤ 5 ∧
      QualityGate.countTier q "CRITICAL_FAST" ≤ 20 ∧
      QualityGate.countTier q "HIGH_NORMAL" ≤ 50) ∧
    (∀ (q : List QualityGate.QItem) (p s : String) (c : ℚ),
      QualityGate.maxQueueSize (QualityGate.tierOfSeverity s) ≤ q.length →
      QualityGate.enqueueLearning q p s c = q) := by
  constructor
  · intro q hq
    induction hq with
    | empty => simp [QualityGate.countTier]
    | enq q p s c hq ih =>
      obtain ⟨ihl, ih1, ih2, ih3⟩ := ih
      unfold QualityGate.enqueueLearning
      split
      · rename_i hlt
        have h50 := QualityGate.maxQueueSize_le_50 (QualityGate.tierOfSeverity s)
        refine ⟨?_, ?_, ?_, ?_⟩
        · simp only [List.length_append, List.length_cons, List.length_nil]
          omega
        · exact QualityGate.enq_count_bound q p s _ c 5 (by decide) hlt ih1
        · exact QualityGate.enq_count_bound q p s _ c 20 (by decide) hlt ih2
        · exact QualityGate.enq_count_bound q p s _ c 50 (by decide) hlt ih3
      · exact ⟨ihl, ih1, ih2, ih3⟩
    | sched q hq ih =>
      obtain ⟨ihl, ih1, ih2, ih3⟩ := ih
      unfold QualityGate.scheduleInit
      split
      · rename_i hlt
        have hinit : ∀ T, QualityGate.countTier [QualityGate.QItem.initTask] T = 0 := by
          intro T
          simp [QualityGate.countTier]
        refine ⟨?_, ?_, ?_, ?_⟩
        · simp only [List.length_append, List.length_cons, List.length_nil]
          omega
        · rw [QualityGate.countTier_append, hinit]
          omega
        · rw [QualityGate.countTier_append, hinit]
          omega
        · rw [QualityGate.countTier_append, hinit]
          omega
      · exact ⟨ihl, ih1, ih2, ih3⟩
    | deq q hq ih =>
      obtain ⟨ihl, ih1, ih2, ih3⟩ := ih
      have hl : q.tail.length ≤ q.length := by
        cases q <;> simp
      have h1 := QualityGate.countTier_tail_le q "ULTRA_CRITICAL"
      have h2 := QualityGate.countTier_tail_le q "CRITICAL_FAST"
      have h3 := QualityGate.countTier_tail_le q "HIGH_NORMAL"
      exact ⟨by omega, by omega, by omega, by omega⟩
    | clear q hq ih => simp [QualityGate.countTier]
  · intro q p s c h
    unfold QualityGate.enqueueLearning
    rw [if_neg (by omega)]

/-- The five ULTRA_CRITICAL tasks filling the queue to that tier's capacity. -/
def QualityGate.c7FullQueue : List QualityGate.QItem :=
  [.learn "p1" "CRITICAL" "ULTRA_CRITICAL" 1, .learn "p2" "CRITICAL" "ULTRA_CRITICAL" 1,
   .learn "p3" "CRITICAL" "ULTRA_CRITICAL" 1, .learn "p4" "CRITICAL" "ULTRA_CRITICAL" 1,
   .learn "p5" "CRITICAL" "ULTRA_CRITICAL" 1]

/-- C7 counterexample: enqueueing a sixth CRITICAL-severity task onto a queue
already holding five ULTRA_CRITICAL tasks leaves the queue unchanged — the
new task is the one dropped, and the oldest task is still at the front — so
the claimed drop-oldest/admit-new overflow policy does not hold. -/
theorem QualityGate.c7_counterexample :
    QualityGate.enqueueLearning QualityGate.c7FullQueue "p6" "CRITICAL" 1 =
      QualityGate.c7FullQueue ∧
    (QualityGate.QItem.learn "p6" "CRITICAL" "ULTRA_CRITICAL" 1) ∉
      QualityGate.enqueueLearning QualityGate.c7FullQueue "p6" "CRITICAL" 1 ∧
    (QualityGate.enqueueLearning QualityGate.c7FullQueue "p6" "CRITICAL" 1).head? =
      some (.learn "p1" "CRITICAL" "ULTRA_CRITICAL" 1) :=
  ⟨by decide, by decide, by decide⟩

/-- Witness for C7 (amended): the five-task queue above is reachable (five
successive enqueues from the empty queue), the invariant holds there, and the
overflow branch of the second conjunct fires on it. -/
theorem QualityGate.c7_amended_witness :
    (QualityGate.c7FullQueue.length ≤ 50 ∧
      QualityGate.countTier QualityGate.c7FullQueue "ULTRA_CRITICAL" ≤ 5 ∧
      QualityGate.countTier QualityGate.c7FullQueue "CRITICAL_FAST" ≤ 20 ∧
      QualityGate.countTier QualityGate.c7FullQueue "HIGH_NORMAL" ≤ 50) ∧
    QualityGate.enqueueLearning QualityGate.c7FullQueue "p6" "CRITICAL" 1 =
      QualityGate.c7FullQueue := by
  have hreach : QualityGate.QReachable QualityGate.c7FullQueue := by
    have h0 := QualityGate.QReachable.empty
    have h1 := QualityGate.QReachable.enq _ "p1" "CRITICAL" 1 h0
    have h2 := QualityGate.QReachable.enq _ "p2" "CRITICAL" 1 h1
    have h3 := QualityGate.QReachable.enq _ "p3" "CRITICAL" 1 h2
    have h4 := QualityGate.QReachable.enq _ "p4" "CRITICAL" 1 h3
    have h5 := QualityGate.QReachable.enq _ "p5" "CRITICAL" 1 h4
    have heq : QualityGate.enqueueLearning
        (QualityGate.enqueueLearning
          (QualityGate.enqueueLearning
            (QualityGate.enqueueLearning
              (QualityGate.enqueueLearning [] "p1" "CRITICAL" 1) "p2" "CRITICAL" 1)
            "p3" "CRITICAL" 1) "p4" "CRITICAL" 1) "p5" "CRITICAL" 1 =
        QualityGate.c7FullQueue := by decide
    rwa [heq] at h5
  exact ⟨QualityGate.c7_amended.1 QualityGate.c7FullQueue hreach,
         QualityGate.c7_amended.2 QualityGate.c7FullQueue "p6" "CRITICAL" 1 (by decide)⟩

namespace QualityGate

/-! ### `_update_pattern_weights_background` -/

/-- `tiered_learning_config.get(tier, {}).get('learning_rate', 0.01)`. -/
def tierLearningRate (t : String) : ℚ :=
  if t = "ULTRA_CRITICAL" then 1/1000
  else if t = "CRITICAL_FAST" then 5/1000
  else if t = "HIGH_NORMAL" then 1/100
  else 1/100

/-- `tiered_learning_config.get(tier, {}).get('confidence_threshold', 0.8)`. -/
def tierConfidenceThreshold (t : String) : ℚ :=
  if t = "ULTRA_CRITICAL" then 95/100
  else if t = "CRITICAL_FAST" then 85/100
  else if t = "HIGH_NORMAL" then 70/100
  else 8/10

/-- A `pattern_update` task as consumed by
`_update_pattern_weights_background`. -/
structure BGTask where
  pattern : String
  severity : String
  tier : String
  confidence : ℚ

/-- `_update_pattern_weights_background` acting on `background_weights`
(modelled as a partial map; key absent ⇒ current weight defaults to 1.0):
below the tier's confidence floor the task is discarded, otherwise the stored
weight moves by an exponential moving average toward
`performance_factor = min(confidence, 1.0)`.  (The subsequent
`_update_tiered_cache` call touches only the `learning_cache`, not the
weights.) -/
def updateWeightsBackground (weights : String → Option ℚ) (task : BGTask) :
    String → Option ℚ :=
  let lr := tierLearningRate task.tier
  let th := tierConfidenceThreshold task.tier
  if task.confidence < th then weights
  else
    let current := (weights task.pattern).getD 1
    let pf := min task.confidence 1
    fun p => if p = task.pattern then some ((1 - lr) * current + lr * pf) else weights p

end QualityGate

/-- C8: a learning task below its tier's confidence floor is discarded and the
weight map is unchanged; otherwise only the task's pattern is updated, to
`(1 - η) * current_weight + η * observed_confidence` with the tier's η, the
current weight defaulting to 1.0 when absent.  The floors are 0.95 / 0.85 /
0.70 and the rates 0.001 / 0.005 / 0.01 for ULTRA_CRITICAL / CRITICAL_FAST /
HIGH_NORMAL.  (The hypothesis `confidence ≤ 1` reflects that every enqueue
site clamps confidence with `min(…, 1.0)`, making the source's
`performance_factor` equal to the observed confidence.) -/
theorem QualityGate.c8_weight_update (weights : String → Option ℚ)
    (task : QualityGate.BGTask) (hconf : task.confidence ≤ 1) :
    (task.confidence < QualityGate.tierConfidenceThreshold task.tier →
      QualityGate.updateWeightsBackground weights task = weights) ∧
    (QualityGate.tierConfidenceThreshold task.tier ≤ task.confidence →
      QualityGate.updateWeightsBackground weights task task.pattern =
        some ((1 - QualityGate.tierLearningRate task.tier) *
            ((weights task.pattern).getD 1) +
          QualityGate.tierLearningRate task.tier * task.confidence) ∧
      (∀ p, p ≠ task.pattern →
        QualityGate.updateWeightsBackground weights task p = weights p)) ∧
    (QualityGate.tierConfidenceThreshold "ULTRA_CRITICAL" = 95/100 ∧
     QualityGate.tierConfidenceThreshold "CRITICAL_FAST" = 85/100 ∧
     QualityGate.tierConfidenceThreshold "HIGH_NORMAL" = 70/100 ∧
     QualityGate.tierLearningRate "ULTRA_CRITICAL" = 1/1000 ∧
     QualityGate.tierLearningRate "CRITICAL_FAST" = 5/1000 ∧
     QualityGate.tierLearningRate "HIGH_NORMAL" = 1/100) := by
  refine ⟨?_, ?_, ?_⟩
  · intro h
    simp [QualityGate.updateWeightsBackground, h]
  · intro h
    constructor
    · simp only [QualityGate.updateWeightsBackground, if_neg (not_lt.mpr h), if_pos rfl]
      rw [min_eq_left hconf]
    · intro p hp
      simp only [QualityGate.updateWeightsBackground, if_neg (not_lt.mpr h), if_neg hp]
  · refine ⟨?_, ?_, ?_, ?_, ?_, ?_⟩ <;>
      simp [QualityGate.tierConfidenceThreshold, QualityGate.tierLearningRate]

/-- Witness for C8 at a concrete task: a CRITICAL_FAST task with confidence
0.9 is above its floor 0.85, and updates an absent weight (default 1.0) to
`(1 - 0.005) * 1 + 0.005 * 0.9`. -/
theorem QualityGate.c8_weight_update_witness :
    QualityGate.tierConfidenceThreshold "CRITICAL_FAST" ≤ 9/10 ∧
    QualityGate.updateWeightsBackground (fun _ => none)
      ⟨"p", "HIGH", "CRITICAL_FAST", 9/10⟩ "p" =
      some ((1 - QualityGate.tierLearningRate "CRITICAL_FAST") * 1 +
        QualityGate.tierLearningRate "CRITICAL_FAST" * (9/10)) := by
  have hth : QualityGate.tierConfidenceThreshold "CRITICAL_FAST" = 85/100 := by
    unfold QualityGate.tierConfidenceThreshold
    rw [if_neg (by decide), if_pos rfl]
  exact ⟨by rw [hth]; norm_num,
    ((QualityGate.c8_weight_update (fun _ => none)
      ⟨"p", "HIGH", "CRITICAL_FAST", 9/10⟩ (by norm_num)).2.1
      (by rw [hth]; norm_num)).1⟩

namespace QualityGate

/-! ### Error recovery and stability mode (`_activate_error_recovery`,
`_execute_recovery_strategy`, `_enter_stability_mode`)

Timestamps are modelled as integers (seconds); the recovery window check
`time.time() - r['timestamp'] < 60.0` becomes `now - t0 < 60` over `ℤ`. -/

/-- The mutable state touched by the recovery controller: recorded recovery
timestamps, the four feature flags, the total time budget
(`tier_constraints["TOTAL_BUDGET"]`, in ms), an abstract total cache size
(`clear_all_caches` sets it to 0), the hook stream flag, and
`error_recovery_enabled`. -/
structure RecoveryState where
  history : List ℤ
  ultrafast : Bool
  backgroundLearning : Bool
  realtime : Bool
  adaptive : Bool
  totalBudget : ℚ
  caches : Nat
  streamActive : Bool
  errorRecoveryEnabled : Bool

/-- `error_recovery_system['recovery_strategies'].get(error_type,
'default_fallback')`. -/
def strategyFor (errorType : String) : String :=
  if errorType = "memory_overflow" then "reduce_cache_size"
  else if errorType = "timeout_violation" then "switch_to_ultrafast_mode"
  else if errorType = "pattern_compilation_error" then "fallback_to_basic_patterns"
  else if errorType = "hook_integration_failure" then "bypass_hook_temporarily"
  else "default_fallback"

/-- `_enter_stability_mode`: disable ultrafast matching, background learning,
realtime integration and adaptive optimization; clear all caches; relax the
tier constraints (total budget to 5.0 ms). -/
def enterStabilityMode (s : RecoveryState) : RecoveryState :=
  { s with ultrafast := false, backgroundLearning := false,
           realtime := false, adaptive := false,
           caches := 0, totalBudget := 5 }

/-- `_execute_recovery_strategy`.  `initFast` is the timing oracle of
`_initialize_ultrafast_core` (re-run by `enable_ultrafast_mode` when
ultrafast is off): re-initialization re-enables ultrafast matching iff it
finishes within its 0.1 ms constraint. -/
def executeRecoveryStrategy (s : RecoveryState) (strategy : String)
    (initFast : Bool) : RecoveryState :=
  if strategy = "reduce_cache_size" then { s with caches := min s.caches 50 }
  else if strategy = "switch_to_ultrafast_mode" then
    (if s.ultrafast then s else { s with ultrafast := initFast })
  else if strategy = "fallback_to_basic_patterns" then
    { s with ultrafast := false, backgroundLearning := false }
  else if strategy = "bypass_hook_temporarily" then { s with streamActive := false }
  else { s with caches := 0 }

/-- `_activate_error_recovery`: when at least `max_recovery_attempts = 3`
recovery records fall within the last 60 seconds, enter stability mode
(recording nothing); otherwise execute the strategy for the error type and
append a recovery record. -/
def activateRecovery (s : RecoveryState) (errorType : String) (now : ℤ)
    (initFast : Bool) : RecoveryState :=
  if !s.errorRecoveryEnabled then s
  else if 3 ≤ (s.history.filter (fun t0 => now - t0 < 60)).length then
    enterStabilityMode s
  else
    let s1 := executeRecoveryStrategy s (strategyFor errorType) initFast
    { s1 with history := s1.history ++ [now] }

/-- The recovery-relevant state right after `__init__` (all features on,
1.5 ms total budget, empty history). -/
def initialRecoveryState : RecoveryState :=
  { history := [], ultrafast := true, backgroundLearning := true,
    realtime := true, adaptive := true, totalBudget := mkRat 15 10,
    caches := 0, streamActive := true, errorRecoveryEnabled := true }

/-- One activation step, for folding traces. -/
def recoveryStep (s : RecoveryState) (ev : String × ℤ × Bool) : RecoveryState :=
  activateRecovery s ev.1 ev.2.1 ev.2.2

end QualityGate

namespace QualityGate

/-- One recovery activation never turns `background_learning_enabled`,
`realtime_integration_enabled` or `adaptive_optimization_enabled` back on:
no strategy of `_execute_recovery_strategy` sets them to `True`. -/
theorem recoveryStep_flags_mono (s : RecoveryState) (ev : String × ℤ × Bool) :
    ((recoveryStep s ev).backgroundLearning = true → s.backgroundLearning = true) ∧
    ((recoveryStep s ev).realtime = true → s.realtime = true) ∧
    ((recoveryStep s ev).adaptive = true → s.adaptive = true) := by
  unfold recoveryStep activateRecovery executeRecoveryStrategy enterStabilityMode
  split_ifs <;> simp_all

/-- The three flags stay off along any trace of recovery activations. -/
theorem recoveryTrace_flags_mono (trace : List (String × ℤ × Bool)) :
    ∀ s : RecoveryState,
      (s.backgroundLearning = false → (trace.foldl recoveryStep s).backgroundLearning = false) ∧
      (s.realtime = false → (trace.foldl recoveryStep s).realtime = false) ∧
      (s.adaptive = false → (trace.foldl recoveryStep s).adaptive = false) := by
  induction trace with
  | nil => intro s; exact ⟨fun h => h, fun h => h, fun h => h⟩
  | cons ev rest ih =>
    intro s
    obtain ⟨ih1, ih2, ih3⟩ := ih (recoveryStep s ev)
    have hm := recoveryStep_flags_mono s ev
    refine ⟨fun h => ih1 ?_, fun h => ih2 ?_, fun h => ih3 ?_⟩
    · cases hb : (recoveryStep s ev).backgroundLearning with
      | false => rfl
      | true => rw [hm.1 hb] at h; cases h
    · cases hb : (recoveryStep s ev).realtime with
      | false => rfl
      | true => rw [hm.2.1 hb] at h; cases h
    · cases hb : (recoveryStep s ev).adaptive with
      | false => rfl
      | true => rw [hm.2.2 hb] at h; cases h

end QualityGate

/-- C9 (amended): a recovery activation that finds 3 or more recovery records
within the preceding 60 s enters stability mode — ultrafast matching,
background learning, realtime integration and adaptive optimization disabled,
caches cleared, total budget relaxed to 5 ms.  Background learning, realtime
integration and adaptive optimization are never re-enabled by later recovery
activations; (entry happens only on such a later activation, and ultrafast
matching *can* be re-enabled automatically — see the counterexample). -/
theorem QualityGate.c9_amended :
    (∀ (s : QualityGate.RecoveryState) (et : String) (now : ℤ) (fast : Bool),
      s.errorRecoveryEnabled = true →
      3 ≤ (s.history.filter (fun t0 => now - t0 < 60)).length →
      QualityGate.activateRecovery s et now fast = QualityGate.enterStabilityMode s ∧
      (QualityGate.enterStabilityMode s).ultrafast = false ∧
      (QualityGate.enterStabilityMode s).backgroundLearning = false ∧
      (QualityGate.enterStabilityMode s).realtime = false ∧
      (QualityGate.enterStabilityMode s).adaptive = false ∧
      (QualityGate.enterStabilityMode s).caches = 0 ∧
      (QualityGate.enterStabilityMode s).totalBudget = 5) ∧
    (∀ (s : QualityGate.RecoveryState) (trace : List (String × ℤ × Bool)),
      s.backgroundLearning = false →
      s.realtime = false →
      s.adaptive = false →
      (trace.foldl QualityGate.recoveryStep s).backgroundLearning = false ∧
      (trace.foldl QualityGate.recoveryStep s).realtime = false ∧
      (trace.foldl QualityGate.recoveryStep s).adaptive = false) := by
  constructor
  · intro s et now fast hen hwin
    refine ⟨?_, rfl, rfl, rfl, rfl, rfl, rfl⟩
    simp [QualityGate.activateRecovery, hen, hwin]
  · intro s trace h1 h2 h3
    obtain ⟨m1, m2, m3⟩ := QualityGate.recoveryTrace_flags_mono trace s
    exact ⟨m1 h1, m2 h2, m3 h3⟩

/-- The state after three recovery activations (`memory_overflow` at t = 0, 1,
2 s) from the freshly initialized engine. -/
def QualityGate.c9AfterThree : QualityGate.RecoveryState :=
  QualityGate.activateRecovery
    (QualityGate.activateRecovery
      (QualityGate.activateRecovery QualityGate.initialRecoveryState
        "memory_overflow" 0 true)
      "memory_overflow" 1 true)
    "memory_overflow" 2 true

/-- C9 counterexample.  Three recovery activations occur within a 60-second
window, yet the engine has *not* entered stability mode (all features are
still on and the total budget is still 1.5 ms, not 5 ms) — entry happens only
on a fourth activation; and after stability mode is entered, a later
activation outside the window (`timeout_violation` at t = 100 s) automatically
re-enables ultrafast matching with no explicit reset. -/
theorem QualityGate.c9_counterexample :
    QualityGate.c9AfterThree.history = [0, 1, 2] ∧
    QualityGate.c9AfterThree.ultrafast = true ∧
    QualityGate.c9AfterThree.backgroundLearning = true ∧
    QualityGate.c9AfterThree.realtime = true ∧
    QualityGate.c9AfterThree.adaptive = true ∧
    QualityGate.c9AfterThree.totalBudget = QualityGate.initialRecoveryState.totalBudget ∧
    QualityGate.initialRecoveryState.totalBudget ≠ 5 ∧
    (QualityGate.activateRecovery QualityGate.c9AfterThree "memory_overflow" 3 true).ultrafast
      = false ∧
    (QualityGate.activateRecovery QualityGate.c9AfterThree "memory_overflow" 3 true).totalBudget
      = 5 ∧
    (QualityGate.activateRecovery
      (QualityGate.activateRecovery QualityGate.c9AfterThree "memory_overflow" 3 true)
      "timeout_violation" 100 true).ultrafast = true := by
  refine ⟨by decide, by decide, by decide, by decide, by decide, rfl, ?_, by decide, rfl, by decide⟩
  show mkRat 15 10 ≠ 5
  rw [Rat.mkRat_eq_div]
  norm_num

/-- Witness for C9 (amended) at a concrete state: with three records in the
window, the fourth activation yields exactly the stability-mode state, whose
budget is 5 ms; and from a state with the three flags off, they remain off
after an arbitrary concrete trace. -/
theorem QualityGate.c9_amended_witness :
    QualityGate.activateRecovery
        { QualityGate.initialRecoveryState with history := [0, 1, 2] }
        "analysis_error" 3 true =
      QualityGate.enterStabilityMode
        { QualityGate.initialRecoveryState with history := [0, 1, 2] } ∧
    (QualityGate.enterStabilityMode
        { QualityGate.initialRecoveryState with history := [0, 1, 2] }).totalBudget = 5 ∧
    ([("timeout_violation", (100 : ℤ), true)].foldl QualityGate.recoveryStep
        (QualityGate.enterStabilityMode QualityGate.initialRecoveryState)).backgroundLearning
      = false :=
  have h := QualityGate.c9_amended.1
    { QualityGate.initialRecoveryState with history := [0, 1, 2] }
    "analysis_error" 3 true rfl (by decide)
  have h2 := QualityGate.c9_amended.2
    (QualityGate.enterStabilityMode QualityGate.initialRecoveryState)
    [("timeout_violation", (100 : ℤ), true)] rfl rfl rfl
  ⟨h.1, h.2.2.2.2.2.2, h2.1⟩

namespace QualityGate

/-! ## `scripts/performance_optimizer.py` -/

/-- Case-insensitive prefix test (comparison of `lower()`-ed strings). -/
def isPrefixCI : List Char → List Char → Bool
  | [], _ => true
  | _ :: _, [] => false
  | k :: ks, c :: cs => k.toLower == c.toLower && isPrefixCI ks cs

/-- `keyword.lower() in content.lower()`. -/
def containsCI (needle : List Char) : List Char → Bool
  | [] => needle.isEmpty
  | c :: rest => isPrefixCI needle (c :: rest) || containsCI needle rest

/-- Case-sensitive literal matcher (the `safe_patterns` are compiled without
`re.IGNORECASE`). -/
def mLitCSL : List Char → Matcher
  | [], s => [s]
  | _ :: _, [] => []
  | c :: cs, d :: ds => if c == d then mLitCSL cs ds else []

/-- Case-sensitive literal from a string literal. -/
def mLitCS (t : String) : Matcher := mLitCSL t.toList

/-- `str.isascii()`. -/
def pyIsAscii (s : List Char) : Bool := s.all (fun c => c.toNat < 128)

/-- The `danger_keywords` list of `is_likely_safe_content`. -/
def dangerKeywords : List String :=
  ["sk_", "pk_", "api", "key", "secret", "token", "AKIA", "rm", "sudo", "eval",
   "exec", "とりあえず", "TODO", "FIXME", "console.log", "print"]

/-- Characters of the class `[a-zA-Z0-9\s\-_\.]`. -/
def isBasicSafeChar (c : Char) : Bool :=
  c.isAlphanum || isPySpace c || c == '-' || c == '_' || c == '.'

/-- `^[a-zA-Z0-9\s\-_\.]*$` via `re.match` on the stripped content: as `\n`
lies in the class (via `\s`) and a stripped string has no trailing newline,
the anchored pattern matches iff every character is in the class. -/
def safePatternBasic (s : List Char) : Bool := s.all isBasicSafeChar

/-- `^(ls|cd|pwd|echo|cat)\s` via `re.match` (anchored at the start). -/
def safePatternCommand (s : List Char) : Bool :=
  !((mSeq (mAlt (mLitCS "ls") (mAlt (mLitCS "cd") (mAlt (mLitCS "pwd")
      (mAlt (mLitCS "echo") (mLitCS "cat"))))) (mCls isPySpace)) s).isEmpty

/-- `^\w+\s*=\s*\w+$` via `re.match`; the final `$` (no `re.MULTILINE`) holds
at the end of the string or before one trailing newline. -/
def safePatternAssign (s : List Char) : Bool :=
  ((mSeq (mPlusCls isWordChar) (mSeq (mStarCls isPySpace) (mSeq (mLitCS "=")
      (mSeq (mStarCls isPySpace) (mPlusCls isWordChar))))) s).any
    (fun rem => rem.isEmpty || rem == ['\n'])

/-- `PerformanceOptimizer.is_likely_safe_content`. -/
def is_likely_safe_content (content : List Char) : Bool :=
  if content.isEmpty = true ∨ (pyStrip content).length < 3 then true
  else if dangerKeywords.any (fun kw => containsCI kw.toList content) then false
  else if pyIsAscii content = true ∧ content.length < 50 then
    safePatternBasic (pyStrip content) || safePatternCommand (pyStrip content) ||
      safePatternAssign (pyStrip content)
  else false

/-- One entry of a severity's pattern dict: regex source, its embedded
matcher, message. -/
structure PatRule where
  pat : String
  search : List Char → Bool
  msg : String

/-- `fast_pattern_match`: the first pattern (dict order) whose regex finds a
match anywhere in the content.  (Patterns failing to compile are skipped in
the source; every embedded rule compiles.) -/
def fast_pattern_match (content : List Char) (patterns : List PatRule) :
    Option (String × String) :=
  match patterns.find? (fun r => r.search content) with
  | some r => some (r.pat, r.msg)
  | none => none

/-- The optimizer's cache state: the skip cache (contents judged safe) and the
pattern cache keyed by content and severity.  The truncated-MD5 key of
`get_content_hash` is modelled as the content itself (an injective key). -/
structure OptCacheState where
  skipCache : List (List Char) := []
  patternCache : List ((List Char × String) × Option (String × String)) := []

/-- `PerformanceOptimizer.analyze_with_cache`, returning the
`(pattern, message)` result and the updated cache state. -/
def analyze_with_cache (st : OptCacheState) (content : List Char)
    (patterns : List PatRule) (severity : String) :
    Option (String × String) × OptCacheState :=
  if st.skipCache.contains content then (none, st)
  else
    match st.patternCache.lookup (content, severity) with
    | some r => (r, st)
    | none =>
      if is_likely_safe_content content then
        (none, { st with skipCache := content :: st.skipCache })
      else
        match fast_pattern_match content patterns with
        | some pm =>
          (some pm,
           { st with patternCache := ((content, severity), some pm) :: st.patternCache })
        | none =>
          (none,
           { st with patternCache := ((content, severity), none) :: st.patternCache })

end QualityGate

namespace QualityGate

/-- Characters of the stripped content all come from the content. -/
theorem pyStrip_subset (s : List Char) : ∀ c, c ∈ pyStrip s → c ∈ s := by
  intro c hc
  unfold pyStrip at hc
  rw [List.mem_reverse] at hc
  have hc2 := (List.dropWhile_sublist (p := isPySpace)).subset hc
  rw [List.mem_reverse] at hc2
  exact (List.dropWhile_sublist (p := isPySpace)).subset hc2

end QualityGate

/-- C10: `analyze_with_cache` returns no match for any content that
`is_likely_safe_content` classifies as safe (given no stale pattern-cache
entry for that content and severity, which holds in particular for fresh
caches) — no pattern in the dictionary is consulted.  Safe contents include
every content whose stripped length is under 3, and every ASCII content
shorter than 50 characters made only of letters, digits, whitespace, `-`,
`_`, `.` containing no danger keyword; in particular the CRITICAL pattern
`DROP\s+DATABASE` matches `"DROP DATABASE"`, yet `analyze_with_cache` reports
no match for it. -/
theorem QualityGate.c10_safe_skip :
    (∀ (st : QualityGate.OptCacheState) (content : List Char)
        (patterns : List QualityGate.PatRule) (sev : String),
      st.patternCache.lookup (content, sev) = none →
      QualityGate.is_likely_safe_content content = true →
      (QualityGate.analyze_with_cache st content patterns sev).1 = none) ∧
    (∀ content : List Char, (QualityGate.pyStrip content).length < 3 →
      QualityGate.is_likely_safe_content content = true) ∧
    (∀ content : List Char,
      QualityGate.pyIsAscii content = true → content.length < 50 →
      content.all QualityGate.isBasicSafeChar = true →
      (QualityGate.dangerKeywords.any
        (fun kw => QualityGate.containsCI kw.toList content)) = false →
      QualityGate.is_likely_safe_content content = true) ∧
    (QualityGate.is_likely_safe_content "DROP DATABASE".toList = true ∧
     QualityGate.reSearch QualityGate.reDropDatabase "DROP DATABASE".toList = true ∧
     (QualityGate.analyze_with_cache {} "DROP DATABASE".toList
        [⟨"DROP\\s+DATABASE", QualityGate.reSearch QualityGate.reDropDatabase,
          "直接的なデータベース削除操作が検出されました"⟩] "CRITICAL").1 = none) := by
  refine ⟨?_, ?_, ?_, by decide, by decide, by decide⟩
  · intro st content patterns sev hlk hsafe
    unfold QualityGate.analyze_with_cache
    split
    · rfl
    · rw [hlk]
  · intro content h
    unfold QualityGate.is_likely_safe_content
    rw [if_pos (Or.inr h)]
  · intro content hascii hlen hbasic hnokw
    unfold QualityGate.is_likely_safe_content
    split
    · rfl
    · rw [hnokw, if_neg (by simp), if_pos ⟨hascii, hlen⟩]
      have hstrip : (QualityGate.pyStrip content).all QualityGate.isBasicSafeChar = true := by
        rw [List.all_eq_true] at hbasic ⊢
        intro c hc
        exact hbasic c (QualityGate.pyStrip_subset content c hc)
      simp [QualityGate.safePatternBasic, hstrip]

/-- Witness for C10 at concrete inputs: fresh caches, the `DROP DATABASE`
content with the one pattern that matches it (no match reported), and a short
content. -/
theorem QualityGate.c10_safe_skip_witness :
    (QualityGate.analyze_with_cache {} "DROP DATABASE".toList
      [⟨"DROP\\s+DATABASE", QualityGate.reSearch QualityGate.reDropDatabase,
        "直接的なデータベース削除操作が検出されました"⟩] "CRITICAL").1 = none ∧
    QualityGate.is_likely_safe_content "x".toList = true :=
  ⟨QualityGate.c10_safe_skip.1 {} "DROP DATABASE".toList
    [⟨"DROP\\s+DATABASE", QualityGate.reSearch QualityGate.reDropDatabase,
      "直接的なデータベース削除操作が検出されました"⟩] "CRITICAL" rfl (by decide),
   QualityGate.c10_safe_skip.2.1 "x".toList (by decide)⟩

namespace QualityGate

/-! ### Size optimization (`optimize_for_size`) and the fallback scan
(`_fallback_analyze_with_background_learning`) -/

/-- Index scan for `str.find`, carrying the current index. -/
def findCIAux (needle : List Char) : List Char → Nat → Option Nat
  | [], i => if needle.isEmpty then some i else none
  | c :: rest, i =>
    if isPrefixCI needle (c :: rest) then some i else findCIAux needle rest (i + 1)

/-- `content.lower().find(keyword.lower())`: index of the first
case-insensitive occurrence. -/
def findCI (needle content : List Char) : Option Nat := findCIAux needle content 0

/-- The `important_keywords` list of `optimize_for_size`. -/
def importantKeywords : List String :=
  ["password", "api", "key", "token", "secret", "rm -rf", "sudo", "eval", "exec",
   "とりあえず", "TODO", "FIXME", "hack"]

/-- `PerformanceOptimizer.optimize_for_size`: contents no longer than
`maxLength` pass through; otherwise the derived view is the first 500
characters, plus (for each keyword, at its first occurrence only) the window
`content[max(0, idx-50) : min(len, idx+50)]` prefixed by a space, plus a
space and the last 200 characters, the whole truncated to `maxLength`. -/
def optimize_for_size (content : List Char) (maxLength : Nat) : List Char :=
  if content.length ≤ maxLength then content
  else
    let base := content.take 500
    let withKw := importantKeywords.foldl (fun acc kw =>
      match findCI kw.toList content with
      | none => acc
      | some idx =>
        let start := idx - 50
        let stop := min content.length (idx + 50)
        acc ++ [' '] ++ ((content.drop start).take (stop - start))) base
    let withTail :=
      if 200 < content.length then withKw ++ [' '] ++ content.drop (content.length - 200)
      else withKw
    withTail.take maxLength

/-- A parsed `patterns.json` document, as consumed by
`_extract_patterns_by_severity`: the hierarchical sections (severity →
categories → a `patterns` dict), and the old-format flat `patterns` dict with
its `severity_mapping` (message → severity).  Each regex source carries its
embedded compiled matcher.  (When `_extract_patterns_by_severity` is called
with `None` instead of a dict, its membership test `target_severity in config`
raises `TypeError`; that case is handled at the call site in
`fallbackAnalyze`.) -/
structure PatternsConfig where
  sections : List (String × List (String × List PatRule)) := []
  flatPatterns : List PatRule := []
  severityMapping : List (String × String) := []

/-- `_extract_patterns_by_severity` on a loaded configuration: the target
severity section's category patterns, then the old-format patterns whose
mapped severity equals the target, in dict insertion order.  (A regex source
occurring in both parts would overwrite its dict entry; the embedded
configurations carry no such duplicate.) -/
def extract_patterns_by_severity (cfg : PatternsConfig) (target : String) :
    List PatRule :=
  (match cfg.sections.lookup target with
   | some cats => cats.flatMap (fun cat => cat.2)
   | none => []) ++
  cfg.flatPatterns.filter (fun r => cfg.severityMapping.lookup r.msg == some target)

/-- `str(e)` for the `TypeError` raised by `target_severity in None`. -/
def noneTypeError : String := "argument of type 'NoneType' is not iterable"

/-- Default `pattern_confidence` base weights
(`_initialize_lightweight_learning`). -/
def defaultBaseWeight (severity : String) : ℚ :=
  if severity = "CRITICAL" then 1
  else if severity = "HIGH" then mkRat 8 10
  else if severity = "INFO" then mkRat 6 10
  else 1

/-- `_apply_lightweight_weights(pattern, severity, 1.0)` under the default
learning weights (empty `pattern_specific` table):
`min(confidence * base_weight * pattern_weight, 1.0)` with
`confidence = pattern_weight = 1.0`. -/
def applyLightweightWeights (severity : String) : ℚ :=
  min (1 * defaultBaseWeight severity * 1) 1

/-- `_apply_background_learned_weights(pattern, severity, base)` with empty
`background_weights` and `learning_cache` (learned weight defaults 1.0):
`min(base_confidence * final_weight, 1.0)`. -/
def applyBackgroundWeights (base : ℚ) : ℚ := min (base * 1) 1

/-- The inline confidence thresholds of the fallback scan
(0.8 / 0.6 / 0.4). -/
def severityThreshold (severity : String) : ℚ :=
  if severity = "CRITICAL" then mkRat 8 10
  else if severity = "HIGH" then mkRat 6 10
  else mkRat 4 10

/-- Timing oracles of `_fallback_analyze_with_background_learning`: whether
the 1-second deadline fired after the CRITICAL stage, and whether budget
remains for the INFO stage (elapsed < 0.050 s). -/
structure FallbackOracle where
  timedOut : Bool
  infoOK : Bool

/-- One severity stage: on a match, emit the verdict if the doubly-weighted
confidence reaches the severity threshold, else continue. -/
def fallbackStage (hit : Option (String × String)) (severity : String) :
    Option (String × String) :=
  match hit with
  | some (_, msg) =>
    if severityThreshold severity ≤
        applyBackgroundWeights (applyLightweightWeights severity)
    then some (severity, msg) else none
  | none => none

/-- The scanning pipeline of `_fallback_analyze_with_background_learning` on
the given (already size-optimized) text and a successfully loaded
configuration, with fresh optimizer caches and default weights; a severity
stage whose extracted pattern dict is empty is skipped
(`if critical_patterns:` etc.), and the background-learning enqueue does not
affect the verdict. -/
def fallbackScan (cfg : PatternsConfig) (text : List Char) (o : FallbackOracle) :
    String × String :=
  let critical := extract_patterns_by_severity cfg "CRITICAL"
  let r1 := if critical.isEmpty then ((none : Option (String × String)), ({} : OptCacheState))
            else analyze_with_cache {} text critical "CRITICAL"
  match fallbackStage r1.1 "CRITICAL" with
  | some v => v
  | none =>
    if o.timedOut then ("TIMEOUT", "タイムアウト")
    else
      let high := extract_patterns_by_severity cfg "HIGH"
      let r2 := if high.isEmpty then ((none : Option (String × String)), r1.2)
                else analyze_with_cache r1.2 text high "HIGH"
      match fallbackStage r2.1 "HIGH" with
      | some v => v
      | none =>
        if o.infoOK then
          let info := extract_patterns_by_severity cfg "INFO"
          let r3 := if info.isEmpty then ((none : Option (String × String)), r2.2)
                    else analyze_with_cache r2.2 text info "INFO"
          match fallbackStage r3.1 "INFO" with
          | some v => v
          | none => ("NONE", "")
        else ("NONE", "")

/-- `_fallback_analyze_with_background_learning`.  `cfg` is the value of
`_load_patterns_cached()`: `none` when the hard-coded config path
`/mnt/c/Users/tky99/dev/qualitygate/config/patterns.json` is absent or
unreadable — always, in this repository, which ships no such file — because
that function then falls off the end of its `try`/`except` and returns
`None`; the `return self._get_default_patterns()` textually below it belongs
to the later, duplicated definition of `_update_hook_data_stream`, so no
default pattern set is ever loaded here.  With `cfg = none`,
`_extract_patterns_by_severity` raises `TypeError` on its membership test and
the enclosing `except` returns the ERROR verdict, no pattern having been
tested.  Otherwise inputs longer than 1000 characters are replaced by the
`optimize_for_size` view before any pattern is tested, and every pattern of
every severity is tested only against the view. -/
def fallbackAnalyze (cfg : Option PatternsConfig) (input : List Char)
    (o : FallbackOracle) : String × String :=
  match cfg with
  | none => ("ERROR", "フォールバック分析エラー: " ++ noneTypeError)
  | some c =>
    fallbackScan c (if 1000 < input.length then optimize_for_size input 1000 else input) o

/-- Modelled from the spec: the transparency property of C5 asserts the size
optimization never changes the verdict, i.e. that `fallbackAnalyze` agrees
with the same pipeline run on the raw input. -/
def fallbackAnalyzeNoOpt (cfg : Option PatternsConfig) (input : List Char)
    (o : FallbackOracle) : String × String :=
  match cfg with
  | none => ("ERROR", "フォールバック分析エラー: " ++ noneTypeError)
  | some c => fallbackScan c input o

/-- The C5 counterexample input: an AWS access key buried in the middle of a
1220-character string (outside the first 500 and last 200 characters, and
containing no view keyword). -/
def c5Input : List Char :=
  List.replicate 600 'a' ++ "AKIA1234567890ABCDEF".toList ++ List.replicate 600 'a'

/-- A loaded configuration for the C5 counterexample: the parse of a minimal
`patterns.json` holding one CRITICAL security category with the
AWS-access-key pattern. -/
def c5Config : PatternsConfig :=
  { sections := [("CRITICAL",
      [("security",
        [⟨"AKIA[0-9A-Z]\x7b16\x7d", reSearch reAwsKey,
          "ハードコードされたAWSアクセスキーIDが検出されました"⟩])])] }

end QualityGate

namespace QualityGate

/-- Under the default weights, a CRITICAL match passes its confidence
threshold (`0.8 ≤ min(min(1·1·1, 1)·1, 1)`). -/
theorem fallbackConfPassCritical :
    severityThreshold "CRITICAL" ≤
      applyBackgroundWeights (applyLightweightWeights "CRITICAL") := by
  unfold severityThreshold applyBackgroundWeights applyLightweightWeights defaultBaseWeight
  rw [if_pos rfl, if_pos rfl]
  norm_num [Rat.mkRat_eq_div]

/-- When the CRITICAL stage of the fallback scan reports a match (and its
confidence passes the threshold), the scan verdict is that CRITICAL
finding. -/
theorem fallbackScan_critical_hit (cfg : PatternsConfig) (text : List Char)
    (o : FallbackOracle) (pat msg : String)
    (hne : (extract_patterns_by_severity cfg "CRITICAL").isEmpty = false)
    (h : (analyze_with_cache {} text (extract_patterns_by_severity cfg "CRITICAL")
        "CRITICAL").1 = some (pat, msg))
    (hp : severityThreshold "CRITICAL" ≤
      applyBackgroundWeights (applyLightweightWeights "CRITICAL")) :
    fallbackScan cfg text o = ("CRITICAL", msg) := by
  unfold fallbackScan fallbackStage
  simp only []
  rw [hne]
  simp only [Bool.false_eq_true, if_false]
  rw [h]
  simp only []
  rw [if_pos hp]

end QualityGate

/-- C5 counterexample.  In this repository the config file is absent, so the
fallback returns the ERROR verdict for the counterexample input without
testing any pattern (TypeError on the `None` configuration).  And when a
configuration holding an AWS-access-key pattern is loaded, the
1220-character input with that key at offset 600 yields no finding through
the `optimize_for_size` view — while the identical pipeline on the raw input
yields the CRITICAL verdict: the size optimization changes the verdict (the
view drops the key, which lies outside the first 500 and last 200 characters
and carries no keyword anchor). -/
theorem QualityGate.c5_counterexample :
    1000 < QualityGate.c5Input.length ∧
    QualityGate.fallbackAnalyze none QualityGate.c5Input ⟨false, true⟩ =
      ("ERROR", "フォールバック分析エラー: " ++ QualityGate.noneTypeError) ∧
    QualityGate.fallbackAnalyze (some QualityGate.c5Config) QualityGate.c5Input
        ⟨false, true⟩ = ("NONE", "") ∧
    QualityGate.fallbackAnalyzeNoOpt (some QualityGate.c5Config) QualityGate.c5Input
        ⟨false, true⟩ =
      ("CRITICAL", "ハードコードされたAWSアクセスキーIDが検出されました") := by
  refine ⟨by decide, rfl, by decide, ?_⟩
  have hcrit : (QualityGate.analyze_with_cache {} QualityGate.c5Input
      (QualityGate.extract_patterns_by_severity QualityGate.c5Config "CRITICAL")
      "CRITICAL").1 =
      some ("AKIA[0-9A-Z]\x7b16\x7d", "ハードコードされたAWSアクセスキーIDが検出されました") := by
    decide
  exact QualityGate.fallbackScan_critical_hit QualityGate.c5Config QualityGate.c5Input
    ⟨false, true⟩ _ _ (by decide) hcrit QualityGate.fallbackConfPassCritical

/-- C5 (amended): with no loaded configuration — the state of this
repository, whose hard-coded config path does not exist — the fallback
returns the ERROR verdict for every input, testing no pattern, so the size
optimization trivially never changes its verdict there; with a loaded
configuration, inputs of at most 1000 characters are scanned unchanged (the
view is the identity there), and for longer inputs *every* pattern — whether
or not it has a keyword anchor — is tested only against the derived view, so
the scan is exactly the pipeline applied to the view (and, by the
counterexample, this can change the verdict). -/
theorem QualityGate.c5_amended :
    (∀ (input : List Char) (o : QualityGate.FallbackOracle),
      QualityGate.fallbackAnalyze none input o =
        ("ERROR", "フォールバック分析エラー: " ++ QualityGate.noneTypeError)) ∧
    (∀ (cfg : QualityGate.PatternsConfig) (input : List Char)
        (o : QualityGate.FallbackOracle),
      input.length ≤ 1000 →
      QualityGate.fallbackAnalyze (some cfg) input o =
        QualityGate.fallbackScan cfg input o ∧
      QualityGate.optimize_for_size input 1000 = input) ∧
    (∀ (cfg : QualityGate.PatternsConfig) (input : List Char)
        (o : QualityGate.FallbackOracle),
      1000 < input.length →
      QualityGate.fallbackAnalyze (some cfg) input o =
        QualityGate.fallbackScan cfg (QualityGate.optimize_for_size input 1000) o) := by
  refine ⟨fun input o => rfl, ?_, ?_⟩
  · intro cfg input o h
    constructor
    · unfold QualityGate.fallbackAnalyze
      rw [if_neg (by omega)]
    · unfold QualityGate.optimize_for_size
      rw [if_pos h]
  · intro cfg input o h
    unfold QualityGate.fallbackAnalyze
    rw [if_pos h]

/-- Witness for C5 (amended) at concrete inputs: the absent-config ERROR
verdict, the long counterexample input scanned through its view, and a short
input passing through unchanged. -/
theorem QualityGate.c5_amended_witness :
    QualityGate.fallbackAnalyze none "x".toList ⟨false, true⟩ =
      ("ERROR", "フォールバック分析エラー: " ++ QualityGate.noneTypeError) ∧
    QualityGate.fallbackAnalyze (some QualityGate.c5Config) QualityGate.c5Input
        ⟨false, true⟩ =
      QualityGate.fallbackScan QualityGate.c5Config
        (QualityGate.optimize_for_size QualityGate.c5Input 1000) ⟨false, true⟩ ∧
    QualityGate.optimize_for_size "abc".toList 1000 = "abc".toList :=
  ⟨QualityGate.c5_amended.1 "x".toList ⟨false, true⟩,
   QualityGate.c5_amended.2.2 QualityGate.c5Config QualityGate.c5Input ⟨false, true⟩
     (by decide),
   (QualityGate.c5_amended.2.1 QualityGate.c5Config "abc".toList ⟨false, true⟩
     (by decide)).2⟩
